import Mathlib

/-!
Verification of the GPU topology classifier in `src/lib/gpu-config.c` of
linux-driver-management.

Devices live in a `GPtrArray`; distinct array slots are distinct pointers, so a
device reference (an `LdmDevice *` into the array) is modelled as an index
`Option Nat` into the device list, with `none` for `NULL`.  Machine integers
stay small here (flag bits, PCI vendor ids), so `Nat` models `guint`/`gint`
without overflow concerns.
-/

namespace LDMGpuConfig

/-- Modelled from the spec: `ldm-enums.h` is not under `src/`.  The spec models
the PCI vendor identifier as an enumeration {INTEL, AMD, NVIDIA, OTHER}; the
code compares `gint` vendor ids against named constants, so we keep a `Nat`
vendor id and the standard PCI vendor id constants. -/
def LDM_PCI_VENDOR_ID_INTEL : Nat := 0x8086

/-- Modelled from the spec: PCI vendor id constant for AMD (`ldm-enums.h`). -/
def LDM_PCI_VENDOR_ID_AMD : Nat := 0x1002

/-- Modelled from the spec: PCI vendor id constant for NVIDIA (`ldm-enums.h`). -/
def LDM_PCI_VENDOR_ID_NVIDIA : Nat := 0x10de

/-- Modelled from the spec: `ldm-enums.h` is not under `src/`.  The spec models
`topologyType` as a bit flag set over {SIMPLE, HYBRID, OPTIMUS, COMPOSITE, SLI,
CROSSFIRE}; we pick distinct single bits. -/
def LDM_GPU_TYPE_SIMPLE : Nat := 1

/-- Modelled from the spec: HYBRID topology flag bit (`ldm-enums.h`). -/
def LDM_GPU_TYPE_HYBRID : Nat := 2

/-- Modelled from the spec: COMPOSITE topology flag bit (`ldm-enums.h`). -/
def LDM_GPU_TYPE_COMPOSITE : Nat := 4

/-- Modelled from the spec: OPTIMUS topology flag bit (`ldm-enums.h`). -/
def LDM_GPU_TYPE_OPTIMUS : Nat := 8

/-- Modelled from the spec: SLI topology flag bit (`ldm-enums.h`). -/
def LDM_GPU_TYPE_SLI : Nat := 16

/-- Modelled from the spec: CROSSFIRE topology flag bit (`ldm-enums.h`). -/
def LDM_GPU_TYPE_CROSSFIRE : Nat := 32

/-- Modelled from the spec: an external `PCIDevice` exposes a vendor identifier
and the boolean boot-VGA attribute (spec section 3); that is all the classifier
reads from a device. -/
structure LdmDevice where
  vendor_id : Nat
  boot_vga : Bool
deriving DecidableEq, Repr

/-- Modelled from the spec: `ldm_device_has_attribute` lives in device code not
under `src/`.  Per the spec it returns the device's boot-VGA attribute and, on a
null device reference, fails safely with `FALSE` (a GObject
`g_return_val_if_fail` guard). -/
def ldm_device_has_attribute : Option LdmDevice → Bool
  | none => false
  | some d => d.boot_vga

/-- Modelled from the spec: `ldm_device_get_vendor_id` lives in device code not
under `src/`.  It returns the device's PCI vendor id and, on a null device
reference, fails safely with the guard default `0` (no valid PCI vendor id). -/
def ldm_device_get_vendor_id : Option LdmDevice → Nat
  | none => 0
  | some d => d.vendor_id

/-- Dereference a device pointer: `none` is `NULL`, `some i` points at slot `i`
of the manager's device array. -/
def derefDevice (devices : List LdmDevice) : Option Nat → Option LdmDevice
  | none => none
  | some i => devices[i]?

/-- The `_LdmGPUConfig` instance state set by `ldm_gpu_config_init` and
`ldm_gpu_config_analyze`: primary/secondary device pointers, GPU count and the
topology type bitmask (gpu-config.c lines 41-52). -/
structure LdmGPUConfig where
  primary : Option Nat
  secondary : Option Nat
  n_gpu : Nat
  gpu_type : Nat
deriving DecidableEq, Repr

/-- `ldm_gpu_config_init` (gpu-config.c lines 210-214): zero GPUs, SIMPLE type;
the GObject instance starts with NULL primary/secondary pointers. -/
def ldm_gpu_config_init : LdmGPUConfig :=
  { primary := none, secondary := none, n_gpu := 0, gpu_type := LDM_GPU_TYPE_SIMPLE }

/-- Loop body of `ldm_gpu_config_search_boot` (gpu-config.c lines 224-240),
carrying the current array index `i`:  skip the `not_like` slot, return the
first device whose boot-VGA attribute equals `vga_boot`. -/
def ldm_gpu_config_search_boot_from (l : List LdmDevice) (vga_boot : Bool)
    (not_like : Option Nat) (i : Nat) : Option Nat :=
  match l with
  | [] => none
  | d :: rest =>
    if not_like = some i then
      ldm_gpu_config_search_boot_from rest vga_boot not_like (i + 1)
    else if ldm_device_has_attribute (some d) = vga_boot then
      some i
    else
      ldm_gpu_config_search_boot_from rest vga_boot not_like (i + 1)

/-- `ldm_gpu_config_search_boot` (gpu-config.c lines 224-240). -/
def ldm_gpu_config_search_boot (devices : List LdmDevice) (vga_boot : Bool)
    (not_like : Option Nat) : Option Nat :=
  ldm_gpu_config_search_boot_from devices vga_boot not_like 0

/-- `ldm_gpu_config_do_optimus` (gpu-config.c lines 251-271).  On a match the C
code stores `HYBRID|OPTIMUS` into `self->gpu_type` and the two arguments into
`self->primary`/`self->secondary` and returns TRUE; we return the stored
`gpu_type` as `some`, and `none` for FALSE. -/
def ldm_gpu_config_do_optimus (primary secondary : Option LdmDevice) : Option Nat :=
  if ldm_device_has_attribute primary = false then none
  else if ldm_device_has_attribute secondary = true then none
  else if ldm_device_get_vendor_id primary ≠ LDM_PCI_VENDOR_ID_INTEL then none
  else if ldm_device_get_vendor_id secondary ≠ LDM_PCI_VENDOR_ID_NVIDIA then none
  else some (LDM_GPU_TYPE_HYBRID ||| LDM_GPU_TYPE_OPTIMUS)

/-- `ldm_gpu_config_do_amd_hybrid` (gpu-config.c lines 281-306), same encoding
as `ldm_gpu_config_do_optimus`. -/
def ldm_gpu_config_do_amd_hybrid (primary secondary : Option LdmDevice) : Option Nat :=
  if ldm_device_has_attribute primary = false then none
  else if ldm_device_has_attribute secondary = true then none
  else if ldm_device_get_vendor_id primary ≠ LDM_PCI_VENDOR_ID_INTEL ∧
          ldm_device_get_vendor_id primary ≠ LDM_PCI_VENDOR_ID_AMD then none
  else if ldm_device_get_vendor_id secondary ≠ LDM_PCI_VENDOR_ID_AMD then none
  else some LDM_GPU_TYPE_HYBRID

/-- `ldm_gpu_config_analyze` (gpu-config.c lines 313-375) as a function of the
device list the manager returned.  Early `return`s become nested branches; each
result record spells out the instance state at that return point, starting from
`ldm_gpu_config_init` with `self->n_gpu = devices->len` already stored. -/
def ldm_gpu_config_analyze (devices : List LdmDevice) : LdmGPUConfig :=
  if devices.length < 1 then
    { primary := none, secondary := none, n_gpu := devices.length,
      gpu_type := LDM_GPU_TYPE_SIMPLE }
  else if devices.length = 1 then
    { primary := some 0, secondary := none, n_gpu := devices.length,
      gpu_type := LDM_GPU_TYPE_SIMPLE }
  else
    let boot_vga : Nat := (ldm_gpu_config_search_boot devices true none).getD 0
    let non_boot_vga : Option Nat :=
      ldm_gpu_config_search_boot devices false (some boot_vga)
    match ldm_gpu_config_do_optimus (derefDevice devices (some boot_vga))
        (derefDevice devices non_boot_vga) with
    | some t =>
      { primary := some boot_vga, secondary := non_boot_vga,
        n_gpu := devices.length, gpu_type := t }
    | none =>
      match ldm_gpu_config_do_amd_hybrid (derefDevice devices (some boot_vga))
          (derefDevice devices non_boot_vga) with
      | some t =>
        { primary := some boot_vga, secondary := non_boot_vga,
          n_gpu := devices.length, gpu_type := t }
      | none =>
        let vendor_id : Nat := ldm_device_get_vendor_id (derefDevice devices (some boot_vga))
        if vendor_id = ldm_device_get_vendor_id (derefDevice devices non_boot_vga) then
          if vendor_id = LDM_PCI_VENDOR_ID_AMD then
            { primary := some boot_vga, secondary := none, n_gpu := devices.length,
              gpu_type := LDM_GPU_TYPE_COMPOSITE ||| LDM_GPU_TYPE_CROSSFIRE }
          else if vendor_id = LDM_PCI_VENDOR_ID_NVIDIA then
            { primary := some boot_vga, secondary := none, n_gpu := devices.length,
              gpu_type := LDM_GPU_TYPE_COMPOSITE ||| LDM_GPU_TYPE_SLI }
          else
            { primary := some boot_vga, secondary := none, n_gpu := devices.length,
              gpu_type := LDM_GPU_TYPE_SIMPLE }
        else
          { primary := some boot_vga, secondary := none, n_gpu := devices.length,
            gpu_type := LDM_GPU_TYPE_SIMPLE }

/-- `ldm_gpu_config_count` (gpu-config.c lines 410-414): guard returns `0` on a
null configuration reference. -/
def ldm_gpu_config_count : Option LdmGPUConfig → Nat
  | none => 0
  | some self => self.n_gpu

/-- `ldm_gpu_config_get_gpu_type` (gpu-config.c lines 424-428): guard returns
`LDM_GPU_TYPE_SIMPLE` on a null configuration reference. -/
def ldm_gpu_config_get_gpu_type : Option LdmGPUConfig → Nat
  | none => LDM_GPU_TYPE_SIMPLE
  | some self => self.gpu_type

/-- `ldm_gpu_config_has_type` (gpu-config.c lines 445-454): guard returns FALSE
on a null configuration reference, otherwise tests `(gpu_type & mask) == mask`. -/
def ldm_gpu_config_has_type (self : Option LdmGPUConfig) (mask : Nat) : Bool :=
  match self with
  | none => false
  | some s => (s.gpu_type &&& mask) = mask

/-- `ldm_gpu_config_get_primary_device` (gpu-config.c lines 465-470): guard
returns NULL on a null configuration reference. -/
def ldm_gpu_config_get_primary_device : Option LdmGPUConfig → Option Nat
  | none => none
  | some self => self.primary

/-- `ldm_gpu_config_get_secondary_device` (gpu-config.c lines 485-490): guard
returns NULL on a null configuration reference. -/
def ldm_gpu_config_get_secondary_device : Option LdmGPUConfig → Option Nat
  | none => none
  | some self => self.secondary

/-- `ldm_gpu_config_get_detection_device` (gpu-config.c lines 504-510).  Unlike
every other accessor this one has no `g_return_val_if_fail` guard: it calls
`ldm_gpu_config_has_type` (which returns FALSE safely on NULL) and then
dereferences `self->secondary` or `self->primary`.  On a null `self` that field
access is a NULL-pointer dereference, modelled as `Except.error ()`. -/
def ldm_gpu_config_get_detection_device (self : Option LdmGPUConfig) :
    Except Unit (Option Nat) :=
  if ldm_gpu_config_has_type self LDM_GPU_TYPE_HYBRID then
    match self with
    | none => Except.error ()
    | some s => Except.ok s.secondary
  else
    match self with
    | none => Except.error ()
    | some s => Except.ok s.primary

/-- Intel integrated GPU carrying the boot-VGA attribute (test device). -/
def intelBootDev : LdmDevice := { vendor_id := LDM_PCI_VENDOR_ID_INTEL, boot_vga := true }

/-- NVIDIA discrete GPU without the boot-VGA attribute (test device). -/
def nvidiaDev : LdmDevice := { vendor_id := LDM_PCI_VENDOR_ID_NVIDIA, boot_vga := false }

/-- AMD GPU carrying the boot-VGA attribute (test device). -/
def amdBootDev : LdmDevice := { vendor_id := LDM_PCI_VENDOR_ID_AMD, boot_vga := true }

/-- AMD GPU without the boot-VGA attribute (test device). -/
def amdDev : LdmDevice := { vendor_id := LDM_PCI_VENDOR_ID_AMD, boot_vga := false }

/-- C1 counterexample: for `[amd(bootVga=true), amd(bootVga=false)]` the
classifier does not return `COMPOSITE|CROSSFIRE` — the AMD-hybrid rule matches
first (boot device has boot-VGA, the non-boot AMD device does not). -/
theorem C1_counterexample :
    ¬ (ldm_gpu_config_analyze [amdBootDev, amdDev]).gpu_type =
        (LDM_GPU_TYPE_COMPOSITE ||| LDM_GPU_TYPE_CROSSFIRE) := by
  decide

/-- C1 (amended): for `[amd(bootVga=true), amd(bootVga=false)]` the classifier
returns `topologyType = HYBRID`, with the boot AMD device primary and the
non-boot AMD device secondary: the AMD-hybrid cascade rule matches before the
Crossfire composite rule ever runs. -/
theorem C1_amended_amd_pair :
    ldm_gpu_config_analyze [amdBootDev, amdDev] =
      { primary := some 0, secondary := some 1, n_gpu := 2,
        gpu_type := LDM_GPU_TYPE_HYBRID } := by
  decide

/-- C5: for `[intel(bootVga=true), nvidia(bootVga=false)]` the classifier
returns `topologyType = HYBRID|OPTIMUS` with the Intel device (slot 0) primary
and the NVIDIA device (slot 1) secondary. -/
theorem C5_optimus_detection :
    ldm_gpu_config_analyze [intelBootDev, nvidiaDev] =
      { primary := some 0, secondary := some 1, n_gpu := 2,
        gpu_type := LDM_GPU_TYPE_HYBRID ||| LDM_GPU_TYPE_OPTIMUS } ∧
    derefDevice [intelBootDev, nvidiaDev] (some 0) = some intelBootDev ∧
    derefDevice [intelBootDev, nvidiaDev] (some 1) = some nvidiaDev := by
  decide

/-- C6: swapping the two devices yields the identical classification — same
count, same topology type, and primary/secondary dereference to the same Intel
and NVIDIA devices; the boot device is picked by its boot-VGA attribute, not by
its position. -/
theorem C6_order_independence :
    (ldm_gpu_config_analyze [nvidiaDev, intelBootDev]).n_gpu =
      (ldm_gpu_config_analyze [intelBootDev, nvidiaDev]).n_gpu ∧
    (ldm_gpu_config_analyze [nvidiaDev, intelBootDev]).gpu_type =
      (ldm_gpu_config_analyze [intelBootDev, nvidiaDev]).gpu_type ∧
    derefDevice [nvidiaDev, intelBootDev]
        (ldm_gpu_config_analyze [nvidiaDev, intelBootDev]).primary =
      derefDevice [intelBootDev, nvidiaDev]
        (ldm_gpu_config_analyze [intelBootDev, nvidiaDev]).primary ∧
    derefDevice [nvidiaDev, intelBootDev]
        (ldm_gpu_config_analyze [nvidiaDev, intelBootDev]).secondary =
      derefDevice [intelBootDev, nvidiaDev]
        (ldm_gpu_config_analyze [intelBootDev, nvidiaDev]).secondary := by
  decide

/-- C9: classifying the empty device sequence yields the degenerate
configuration — every accessor reports count 0, SIMPLE type, null primary and
null secondary — and no error is raised anywhere. -/
theorem C9_empty_sequence :
    ldm_gpu_config_count (some (ldm_gpu_config_analyze [])) = 0 ∧
    ldm_gpu_config_get_gpu_type (some (ldm_gpu_config_analyze [])) =
      LDM_GPU_TYPE_SIMPLE ∧
    ldm_gpu_config_get_primary_device (some (ldm_gpu_config_analyze [])) = none ∧
    ldm_gpu_config_get_secondary_device (some (ldm_gpu_config_analyze [])) = none := by
  decide

/-- C2 (code bug evidence): on a null configuration reference, `count`,
`get_gpu_type`, `has_type`, `get_primary_device` and `get_secondary_device` all
return their guard defaults, but `get_detection_device` — which has no guard in
the source — dereferences the null pointer (modelled `Except.error`) instead of
returning the safe default NULL. -/
theorem C2_null_config_accessors :
    ldm_gpu_config_count none = 0 ∧
    ldm_gpu_config_get_gpu_type none = LDM_GPU_TYPE_SIMPLE ∧
    ldm_gpu_config_has_type none LDM_GPU_TYPE_HYBRID = false ∧
    ldm_gpu_config_has_type none 0 = false ∧
    ldm_gpu_config_get_primary_device none = none ∧
    ldm_gpu_config_get_secondary_device none = none ∧
    ldm_gpu_config_get_detection_device none = Except.error () :=
  ⟨rfl, rfl, rfl, rfl, rfl, rfl, rfl⟩

/-- On a non-null configuration, `ldm_gpu_config_get_detection_device` returns
the secondary pointer when the HYBRID bit is set and the primary pointer
otherwise (no fault is possible). -/
theorem get_detection_device_some (cfg : LdmGPUConfig) :
    ldm_gpu_config_get_detection_device (some cfg) =
      Except.ok
        (if (cfg.gpu_type &&& LDM_GPU_TYPE_HYBRID) = LDM_GPU_TYPE_HYBRID then
          cfg.secondary
        else cfg.primary) := by
  unfold ldm_gpu_config_get_detection_device ldm_gpu_config_has_type
  by_cases h : (cfg.gpu_type &&& LDM_GPU_TYPE_HYBRID) = LDM_GPU_TYPE_HYBRID <;>
    simp [h]

/-- C3: on every valid (non-null) configuration, the detection device is the
secondary device when the HYBRID bit is set in the topology type, and the
primary device otherwise. -/
theorem C3_detection_device_rule (cfg : LdmGPUConfig) :
    ldm_gpu_config_get_detection_device (some cfg) =
      Except.ok
        (if (cfg.gpu_type &&& LDM_GPU_TYPE_HYBRID) = LDM_GPU_TYPE_HYBRID then
          cfg.secondary
        else cfg.primary) :=
  get_detection_device_some cfg

/-- C3 witness: a concrete HYBRID configuration whose detection device is its
secondary device. -/
theorem C3_detection_device_rule_witness :
    ldm_gpu_config_get_detection_device
        (some { primary := some 0, secondary := some 1, n_gpu := 2,
                gpu_type := LDM_GPU_TYPE_HYBRID }) = Except.ok (some 1) := by
  have h := C3_detection_device_rule
    { primary := some 0, secondary := some 1, n_gpu := 2,
      gpu_type := LDM_GPU_TYPE_HYBRID }
  simpa using h

/-- Any index returned by the boot-device search loop started at offset `k`
lies in the half-open range from `k` to `k` plus the remaining list length. -/
theorem search_boot_from_some {l : List LdmDevice} {b : Bool} {nl : Option Nat}
    {k i : Nat} (h : ldm_gpu_config_search_boot_from l b nl k = some i) :
    k ≤ i ∧ i < k + l.length := by
  induction l generalizing k with
  | nil => simp [ldm_gpu_config_search_boot_from] at h
  | cons d rest ih =>
    simp only [ldm_gpu_config_search_boot_from] at h
    split_ifs at h with h1 h2
    · have := ih h
      simp only [List.length_cons]
      omega
    · cases h
      simp only [List.length_cons]
      omega
    · have := ih h
      simp only [List.length_cons]
      omega

/-- `ldm_gpu_config_search_boot` only ever returns a valid index into the
device array. -/
theorem search_boot_lt {devices : List LdmDevice} {b : Bool} {nl : Option Nat}
    {i : Nat} (h : ldm_gpu_config_search_boot devices b nl = some i) :
    i < devices.length := by
  unfold ldm_gpu_config_search_boot at h
  have := search_boot_from_some h
  omega

/-- The boot-device index chosen by `ldm_gpu_config_analyze` (search result,
defaulting to slot 0) is a valid index whenever the array is non-empty. -/
theorem boot_index_lt {devices : List LdmDevice} (h : 0 < devices.length) :
    (ldm_gpu_config_search_boot devices true none).getD 0 < devices.length := by
  cases hs : ldm_gpu_config_search_boot devices true none with
  | none => simpa using h
  | some j => simpa using search_boot_lt hs

/-- When the Optimus rule matches, the stored type is `HYBRID|OPTIMUS` and the
secondary device's vendor id was read as NVIDIA. -/
theorem do_optimus_eq_some {p s : Option LdmDevice} {t : Nat}
    (h : ldm_gpu_config_do_optimus p s = some t) :
    t = (LDM_GPU_TYPE_HYBRID ||| LDM_GPU_TYPE_OPTIMUS) ∧
      ldm_device_get_vendor_id s = LDM_PCI_VENDOR_ID_NVIDIA := by
  unfold ldm_gpu_config_do_optimus at h
  split_ifs at h with h1 h2 h3 h4
  exact ⟨(Option.some.inj h).symm, not_not.mp h4⟩

/-- When the AMD-hybrid rule matches, the stored type is `HYBRID` and the
secondary device's vendor id was read as AMD. -/
theorem do_amd_hybrid_eq_some {p s : Option LdmDevice} {t : Nat}
    (h : ldm_gpu_config_do_amd_hybrid p s = some t) :
    t = LDM_GPU_TYPE_HYBRID ∧
      ldm_device_get_vendor_id s = LDM_PCI_VENDOR_ID_AMD := by
  unfold ldm_gpu_config_do_amd_hybrid at h
  split_ifs at h with h1 h2 h3 h4
  exact ⟨(Option.some.inj h).symm, not_not.mp h4⟩

/-- A device pointer whose dereference yields a nonzero vendor id is a non-null
pointer to a valid slot of the device array. -/
theorem deref_vendor_ne_zero {devices : List LdmDevice} {p : Option Nat}
    (h : ldm_device_get_vendor_id (derefDevice devices p) ≠ 0) :
    ∃ i, p = some i ∧ i < devices.length := by
  cases p with
  | none => exact absurd rfl h
  | some i =>
    refine ⟨i, rfl, ?_⟩
    by_contra hi
    have hnone : devices[i]? = none := by
      rw [List.getElem?_eq_none_iff]
      omega
    apply h
    simp [derefDevice, hnone, ldm_device_get_vendor_id]

/-- Shape of every classification of two or more devices: the primary pointer
is a valid boot index; the type is `HYBRID` or `HYBRID|OPTIMUS` with a valid
non-null secondary, or else one of `SIMPLE`, `COMPOSITE|SLI`,
`COMPOSITE|CROSSFIRE` with a null secondary. -/
theorem analyze_two_cases (devices : List LdmDevice) (h2 : 2 ≤ devices.length) :
    ∃ boot, boot < devices.length ∧
      (ldm_gpu_config_analyze devices).n_gpu = devices.length ∧
      (ldm_gpu_config_analyze devices).primary = some boot ∧
      ((((ldm_gpu_config_analyze devices).gpu_type = LDM_GPU_TYPE_HYBRID ∨
          (ldm_gpu_config_analyze devices).gpu_type =
            (LDM_GPU_TYPE_HYBRID ||| LDM_GPU_TYPE_OPTIMUS)) ∧
         ∃ nb, nb < devices.length ∧
           (ldm_gpu_config_analyze devices).secondary = some nb) ∨
       (((ldm_gpu_config_analyze devices).gpu_type = LDM_GPU_TYPE_SIMPLE ∨
          (ldm_gpu_config_analyze devices).gpu_type =
            (LDM_GPU_TYPE_COMPOSITE ||| LDM_GPU_TYPE_SLI) ∨
          (ldm_gpu_config_analyze devices).gpu_type =
            (LDM_GPU_TYPE_COMPOSITE ||| LDM_GPU_TYPE_CROSSFIRE)) ∧
        (ldm_gpu_config_analyze devices).secondary = none)) := by
  have h0 : ¬ devices.length < 1 := by omega
  have h1 : ¬ devices.length = 1 := by omega
  refine ⟨(ldm_gpu_config_search_boot devices true none).getD 0,
    boot_index_lt (by omega), ?_⟩
  simp only [ldm_gpu_config_analyze, h0, h1, if_false, ite_false]
  set boot := (ldm_gpu_config_search_boot devices true none).getD 0 with hbootdef
  set nb := ldm_gpu_config_search_boot devices false (some boot) with hnbdef
  cases hopt : ldm_gpu_config_do_optimus (derefDevice devices (some boot))
      (derefDevice devices nb) with
  | some t =>
    obtain ⟨ht, hvend⟩ := do_optimus_eq_some hopt
    obtain ⟨i, hnbi, hlt⟩ := deref_vendor_ne_zero (p := nb) (by rw [hvend]; decide)
    exact ⟨rfl, rfl, Or.inl ⟨Or.inr ht, i, hlt, hnbi⟩⟩
  | none =>
    cases hamd : ldm_gpu_config_do_amd_hybrid (derefDevice devices (some boot))
        (derefDevice devices nb) with
    | some t =>
      obtain ⟨ht, hvend⟩ := do_amd_hybrid_eq_some hamd
      obtain ⟨i, hnbi, hlt⟩ := deref_vendor_ne_zero (p := nb) (by rw [hvend]; decide)
      exact ⟨rfl, rfl, Or.inl ⟨Or.inl ht, i, hlt, hnbi⟩⟩
    | none =>
      split_ifs with hv1 hv2 hv3
      · exact ⟨rfl, rfl, Or.inr ⟨Or.inr (Or.inr rfl), rfl⟩⟩
      · exact ⟨rfl, rfl, Or.inr ⟨Or.inr (Or.inl rfl), rfl⟩⟩
      · exact ⟨rfl, rfl, Or.inr ⟨Or.inl rfl, rfl⟩⟩
      · exact ⟨rfl, rfl, Or.inr ⟨Or.inl rfl, rfl⟩⟩

/-- The Optimus rule evaluated with a null non-boot device returns no-match:
the NVIDIA vendor check cannot pass against the null guard default `0`. -/
theorem do_optimus_null_secondary (p : Option LdmDevice) :
    ldm_gpu_config_do_optimus p none = none := by
  unfold ldm_gpu_config_do_optimus
  split_ifs with h1 h2 h3 h4
  all_goals first
    | rfl
    | exact absurd (not_not.mp h4) (by decide)

/-- The AMD-hybrid rule evaluated with a null non-boot device returns no-match:
the AMD vendor check cannot pass against the null guard default `0`. -/
theorem do_amd_hybrid_null_secondary (p : Option LdmDevice) :
    ldm_gpu_config_do_amd_hybrid p none = none := by
  unfold ldm_gpu_config_do_amd_hybrid
  split_ifs with h1 h2 h3 h4
  all_goals first
    | rfl
    | exact absurd (not_not.mp h4) (by decide)

/-- Every classification stores the device count. -/
theorem analyze_n_gpu (devices : List LdmDevice) :
    (ldm_gpu_config_analyze devices).n_gpu = devices.length := by
  rcases devices with _ | ⟨a, _ | ⟨b, rest⟩⟩
  · rfl
  · rfl
  · obtain ⟨boot, _, hn, _, _⟩ := analyze_two_cases (a :: b :: rest)
      (by rw [List.length_cons, List.length_cons]; omega)
    exact hn

/-- Every classification result carries one of the five topology bitmasks the
cascade can store. -/
theorem analyze_gpu_type_cases (devices : List LdmDevice) :
    (ldm_gpu_config_analyze devices).gpu_type = LDM_GPU_TYPE_SIMPLE ∨
    (ldm_gpu_config_analyze devices).gpu_type = LDM_GPU_TYPE_HYBRID ∨
    (ldm_gpu_config_analyze devices).gpu_type =
      (LDM_GPU_TYPE_HYBRID ||| LDM_GPU_TYPE_OPTIMUS) ∨
    (ldm_gpu_config_analyze devices).gpu_type =
      (LDM_GPU_TYPE_COMPOSITE ||| LDM_GPU_TYPE_SLI) ∨
    (ldm_gpu_config_analyze devices).gpu_type =
      (LDM_GPU_TYPE_COMPOSITE ||| LDM_GPU_TYPE_CROSSFIRE) := by
  rcases devices with _ | ⟨a, _ | ⟨b, rest⟩⟩
  · exact Or.inl rfl
  · exact Or.inl rfl
  · obtain ⟨boot, _, _, _, hcase⟩ := analyze_two_cases (a :: b :: rest)
      (by rw [List.length_cons, List.length_cons]; omega)
    rcases hcase with ⟨ht | ht, _⟩ | ⟨ht | ht | ht, _⟩
    · exact Or.inr (Or.inl ht)
    · exact Or.inr (Or.inr (Or.inl ht))
    · exact Or.inl ht
    · exact Or.inr (Or.inr (Or.inr (Or.inl ht)))
    · exact Or.inr (Or.inr (Or.inr (Or.inr ht)))

/-- C4: classification is total and fault-free.  Both cascade rules evaluated
with a null non-boot device return no-match instead of faulting, and every
device sequence — including all-boot-VGA ones, where the non-boot pointer is
null — yields a deterministic configuration: the count is stored and the
topology type is one of the five values the cascade can produce. -/
theorem C4_classification_total (devices : List LdmDevice) (p : Option LdmDevice) :
    ldm_gpu_config_do_optimus p none = none ∧
    ldm_gpu_config_do_amd_hybrid p none = none ∧
    (ldm_gpu_config_analyze devices).n_gpu = devices.length ∧
    ((ldm_gpu_config_analyze devices).gpu_type = LDM_GPU_TYPE_SIMPLE ∨
     (ldm_gpu_config_analyze devices).gpu_type = LDM_GPU_TYPE_HYBRID ∨
     (ldm_gpu_config_analyze devices).gpu_type =
       (LDM_GPU_TYPE_HYBRID ||| LDM_GPU_TYPE_OPTIMUS) ∨
     (ldm_gpu_config_analyze devices).gpu_type =
       (LDM_GPU_TYPE_COMPOSITE ||| LDM_GPU_TYPE_SLI) ∨
     (ldm_gpu_config_analyze devices).gpu_type =
       (LDM_GPU_TYPE_COMPOSITE ||| LDM_GPU_TYPE_CROSSFIRE)) :=
  ⟨do_optimus_null_secondary p, do_amd_hybrid_null_secondary p,
   analyze_n_gpu devices, analyze_gpu_type_cases devices⟩

/-- C4 witness: a concrete all-boot-VGA sequence (both devices flagged) and a
concrete null-non-boot rule evaluation. -/
theorem C4_classification_total_witness :
    ldm_gpu_config_do_optimus (some intelBootDev) none = none ∧
    ldm_gpu_config_do_amd_hybrid (some intelBootDev) none = none ∧
    (ldm_gpu_config_analyze [intelBootDev, amdBootDev]).n_gpu =
      [intelBootDev, amdBootDev].length ∧
    ((ldm_gpu_config_analyze [intelBootDev, amdBootDev]).gpu_type =
       LDM_GPU_TYPE_SIMPLE ∨
     (ldm_gpu_config_analyze [intelBootDev, amdBootDev]).gpu_type =
       LDM_GPU_TYPE_HYBRID ∨
     (ldm_gpu_config_analyze [intelBootDev, amdBootDev]).gpu_type =
       (LDM_GPU_TYPE_HYBRID ||| LDM_GPU_TYPE_OPTIMUS) ∨
     (ldm_gpu_config_analyze [intelBootDev, amdBootDev]).gpu_type =
       (LDM_GPU_TYPE_COMPOSITE ||| LDM_GPU_TYPE_SLI) ∨
     (ldm_gpu_config_analyze [intelBootDev, amdBootDev]).gpu_type =
       (LDM_GPU_TYPE_COMPOSITE ||| LDM_GPU_TYPE_CROSSFIRE)) :=
  C4_classification_total [intelBootDev, amdBootDev] (some intelBootDev)

/-- C7: in every classification result, the OPTIMUS bit implies the HYBRID bit,
and the SLI and CROSSFIRE bits each imply the COMPOSITE bit. -/
theorem C7_bitmask_invariants (devices : List LdmDevice) :
    ((ldm_gpu_config_analyze devices).gpu_type &&& LDM_GPU_TYPE_OPTIMUS =
        LDM_GPU_TYPE_OPTIMUS →
      (ldm_gpu_config_analyze devices).gpu_type &&& LDM_GPU_TYPE_HYBRID =
        LDM_GPU_TYPE_HYBRID) ∧
    ((ldm_gpu_config_analyze devices).gpu_type &&& LDM_GPU_TYPE_SLI =
        LDM_GPU_TYPE_SLI →
      (ldm_gpu_config_analyze devices).gpu_type &&& LDM_GPU_TYPE_COMPOSITE =
        LDM_GPU_TYPE_COMPOSITE) ∧
    ((ldm_gpu_config_analyze devices).gpu_type &&& LDM_GPU_TYPE_CROSSFIRE =
        LDM_GPU_TYPE_CROSSFIRE →
      (ldm_gpu_config_analyze devices).gpu_type &&& LDM_GPU_TYPE_COMPOSITE =
        LDM_GPU_TYPE_COMPOSITE) := by
  rcases analyze_gpu_type_cases devices with h | h | h | h | h <;> rw [h] <;> decide

/-- C7 witness: the OPTIMUS, SLI and CROSSFIRE implications discharged on
concrete classifications carrying each of those bits. -/
theorem C7_bitmask_invariants_witness :
    (ldm_gpu_config_analyze [intelBootDev, nvidiaDev]).gpu_type &&&
        LDM_GPU_TYPE_HYBRID = LDM_GPU_TYPE_HYBRID ∧
    (ldm_gpu_config_analyze [nvidiaDev, nvidiaDev]).gpu_type &&&
        LDM_GPU_TYPE_COMPOSITE = LDM_GPU_TYPE_COMPOSITE ∧
    (ldm_gpu_config_analyze [amdDev, amdDev]).gpu_type &&&
        LDM_GPU_TYPE_COMPOSITE = LDM_GPU_TYPE_COMPOSITE :=
  ⟨(C7_bitmask_invariants [intelBootDev, nvidiaDev]).1 (by decide),
   (C7_bitmask_invariants [nvidiaDev, nvidiaDev]).2.1 (by decide),
   (C7_bitmask_invariants [amdDev, amdDev]).2.2 (by decide)⟩

/-- C8: classifying at most one device always yields the SIMPLE topology with a
null secondary device. -/
theorem C8_at_most_one_device (devices : List LdmDevice)
    (h : devices.length ≤ 1) :
    (ldm_gpu_config_analyze devices).gpu_type = LDM_GPU_TYPE_SIMPLE ∧
    (ldm_gpu_config_analyze devices).secondary = none := by
  rcases devices with _ | ⟨a, _ | ⟨b, rest⟩⟩
  · exact ⟨rfl, rfl⟩
  · exact ⟨rfl, rfl⟩
  · rw [List.length_cons, List.length_cons] at h
    omega

/-- C8 witness: a single-device sequence. -/
theorem C8_at_most_one_device_witness :
    [amdBootDev].length ≤ 1 ∧
    (ldm_gpu_config_analyze [amdBootDev]).gpu_type = LDM_GPU_TYPE_SIMPLE ∧
    (ldm_gpu_config_analyze [amdBootDev]).secondary = none :=
  ⟨by decide, C8_at_most_one_device [amdBootDev] (by decide)⟩

/-- C10: for every non-empty device sequence, the detection device of the
resulting configuration is a non-null pointer to a device of the sequence: the
HYBRID bit is only stored together with a non-null secondary, and otherwise the
primary was assigned a valid slot before returning. -/
theorem C10_detection_nonnull (devices : List LdmDevice)
    (h : 0 < devices.length) :
    ∃ i, i < devices.length ∧
      ldm_gpu_config_get_detection_device
          (some (ldm_gpu_config_analyze devices)) = Except.ok (some i) := by
  rcases devices with _ | ⟨a, _ | ⟨b, rest⟩⟩
  · simp at h
  · refine ⟨0, by simp, ?_⟩
    rw [show ldm_gpu_config_analyze [a] =
        { primary := some 0, secondary := none, n_gpu := 1,
          gpu_type := LDM_GPU_TYPE_SIMPLE } from rfl,
      get_detection_device_some,
      if_neg (show ¬ LDM_GPU_TYPE_SIMPLE &&& LDM_GPU_TYPE_HYBRID =
        LDM_GPU_TYPE_HYBRID by decide)]
  · obtain ⟨boot, hboot, _, hp, hcase⟩ := analyze_two_cases (a :: b :: rest)
      (by rw [List.length_cons, List.length_cons]; omega)
    rcases hcase with ⟨hty, nb, hnb, hs⟩ | ⟨hty, hs⟩
    · refine ⟨nb, hnb, ?_⟩
      rcases hty with h2 | h2
      · rw [get_detection_device_some, h2,
          if_pos (show LDM_GPU_TYPE_HYBRID &&& LDM_GPU_TYPE_HYBRID =
            LDM_GPU_TYPE_HYBRID by decide), hs]
      · rw [get_detection_device_some, h2,
          if_pos (show (LDM_GPU_TYPE_HYBRID ||| LDM_GPU_TYPE_OPTIMUS) &&&
            LDM_GPU_TYPE_HYBRID = LDM_GPU_TYPE_HYBRID by decide), hs]
    · refine ⟨boot, hboot, ?_⟩
      rcases hty with h2 | h2 | h2
      · rw [get_detection_device_some, h2,
          if_neg (show ¬ LDM_GPU_TYPE_SIMPLE &&& LDM_GPU_TYPE_HYBRID =
            LDM_GPU_TYPE_HYBRID by decide), hp]
      · rw [get_detection_device_some, h2,
          if_neg (show ¬ (LDM_GPU_TYPE_COMPOSITE ||| LDM_GPU_TYPE_SLI) &&&
            LDM_GPU_TYPE_HYBRID = LDM_GPU_TYPE_HYBRID by decide), hp]
      · rw [get_detection_device_some, h2,
          if_neg (show ¬ (LDM_GPU_TYPE_COMPOSITE ||| LDM_GPU_TYPE_CROSSFIRE) &&&
            LDM_GPU_TYPE_HYBRID = LDM_GPU_TYPE_HYBRID by decide), hp]

/-- C10 witness: a concrete non-empty sequence whose detection device is a
valid non-null slot. -/
theorem C10_detection_nonnull_witness :
    0 < [intelBootDev, nvidiaDev].length ∧
    ∃ i, i < [intelBootDev, nvidiaDev].length ∧
      ldm_gpu_config_get_detection_device
          (some (ldm_gpu_config_analyze [intelBootDev, nvidiaDev])) =
        Except.ok (some i) :=
  ⟨by decide, C10_detection_nonnull [intelBootDev, nvidiaDev] (by decide)⟩

end LDMGpuConfig
